import Mathlib

/-!
Verification development for a multi-marketplace crawl/stage/diff/commit
pipeline (lashinbang, mercari, yahoo adapters plus an autorun driver).

Timestamps (SQLite REAL columns) are modelled as rationals, integer columns
as `Int`, TEXT columns as `String`.  Each SQLite table is modelled as a list
of row records in rowid order; the SQL queries of `compare` and `update` are
translated clause by clause into list filters, joins and folds.
-/

/-! ## Fetch layer: `get_one` of the lashinbang and yahoo crawlers -/

/-- Outcome of the underlying HTTP request (`self._s.get` plus
`raise_for_status`): a body on success, an `requests.HTTPError`, or a
timeout exception (which is not an `HTTPError`). -/
inductive FetchOutcome where
  | success : String → FetchOutcome
  | httpError : FetchOutcome
  | timeout : FetchOutcome
deriving DecidableEq

/-- Exception that escapes `get_one` to its caller. -/
inductive FetchErr where
  | valueError : FetchErr
  | httpError : FetchErr
  | timeoutErr : FetchErr
deriving DecidableEq

/-- What `get_one` hands back: either a returned string or a raised
exception propagating to the caller (the future's `.exception()`). -/
inductive FetchResult where
  | ok : String → FetchResult
  | raised : FetchErr → FetchResult
deriving DecidableEq

/-- Result of one `get_one` call: the crawler's `error_count` afterwards,
whether a network request was actually issued, and the returned value or
escaped exception. -/
structure GetOneResult where
  error_count : Nat
  requested : Bool
  outcome : FetchResult
deriving DecidableEq

def MAX_PAGE_LIMIT : Nat := 12

/-- `r.text[9 : -2]`: drop the first nine characters and the last two. -/
def trimText (s : String) : String :=
  ⟨(s.data.drop 9).take (s.data.length - 11)⟩

/-- `LashinbangCrawler.get_one`: rejects pages above `MAX_PAGE_LIMIT`
before building params or touching the network (incrementing
`error_count` and raising `ValueError`); otherwise issues the request.
Only `requests.HTTPError` is caught and counted; a timeout exception
escapes uncaught, so it propagates without touching `error_count`. -/
def LashinbangCrawler.get_one (page : Nat) (net : FetchOutcome)
    (error_count : Nat) : GetOneResult :=
  if page > MAX_PAGE_LIMIT then
    ⟨error_count + 1, false, FetchResult.raised FetchErr.valueError⟩
  else
    match net with
    | FetchOutcome.success t =>
        ⟨error_count, true, FetchResult.ok (trimText t)⟩
    | FetchOutcome.httpError =>
        ⟨error_count + 1, true, FetchResult.raised FetchErr.httpError⟩
    | FetchOutcome.timeout =>
        ⟨error_count, true, FetchResult.raised FetchErr.timeoutErr⟩

/-- `YahooCrawler.get_one`: same `except requests.HTTPError` structure,
no page-limit check and the body is returned untrimmed. -/
def YahooCrawler.get_one (net : FetchOutcome) (error_count : Nat) :
    GetOneResult :=
  match net with
  | FetchOutcome.success t => ⟨error_count, true, FetchResult.ok t⟩
  | FetchOutcome.httpError =>
      ⟨error_count + 1, true, FetchResult.raised FetchErr.httpError⟩
  | FetchOutcome.timeout =>
      ⟨error_count, true, FetchResult.raised FetchErr.timeoutErr⟩

/-! ## Table rows -/

/-- One row of the `lashinbang` / `lashinbang_temp` tables (the
autoincrement rowid is left implicit as list position). -/
structure LashRow where
  item_id : Int
  title : String
  item_url : String
  image_url : String
  price : Int
  record_time : Rat
  update_time : Rat
deriving DecidableEq

/-- One row of the `mercari` / `mercari_temp` tables. -/
structure MercRow where
  item_id : String
  seller_id : String
  title : String
  item_url : String
  image_url : String
  price : Int
  onsale : Int
  record_time : Rat
  update_time : Rat
deriving DecidableEq

/-- One row of the `yahoo` / `yahoo_temp` tables (`end_time` models the
`end` column, a reserved word in Lean). -/
structure YahooRow where
  item_id : String
  seller_id : String
  title : String
  item_url : String
  image_url : String
  bid_price : Int
  full_price : Int
  end_time : Rat
  bid_num : Int
  record_time : Rat
  update_time : Rat
deriving DecidableEq

/-- The managers' `self.info` dict.  `sold` is used by lashinbang and
mercari, `bid` by yahoo. -/
structure Info where
  site : String
  time : Rat
  last : Rat
  error : Nat
  page : Nat
  count : Nat
  new : Nat
  discount : Nat
  sold : Nat
  bid : Nat
deriving DecidableEq

/-- One row of the shared `log` table. -/
structure LogEntry where
  site : String
  time : Rat
  error : Nat
  page : Nat
  count : Nat
  new : Nat
  discount : Nat
  sold : Nat
deriving DecidableEq

/-! ## SQL building blocks -/

/-- `FROM temp AS t INNER JOIN tbl AS l ON keq t l`. -/
def joinTables {ρ : Type} (keq : ρ → ρ → Bool) (temp tbl : List ρ) :
    List (ρ × ρ) :=
  temp.flatMap (fun t => ((tbl.filter (fun l => keq t l)).map (fun l => (t, l))))

/-- Effect of one parameterised `UPDATE ... WHERE key = ?` statement on a
single row: rewritten by `upd t` when its key matches `t`'s. -/
def updRow {α κ : Type} [DecidableEq κ] (key : α → κ) (upd : α → α → α)
    (l t : α) : α :=
  if key l = key t then upd t l else l

/-- One parameterised `UPDATE ... WHERE key = ?` applied to a whole table:
each row whose key matches `t` is rewritten by `upd t`. -/
def applyUpd {α κ : Type} [DecidableEq κ] (key : α → κ) (upd : α → α → α)
    (tbl : List α) (t : α) : List α :=
  tbl.map (fun l => updRow key upd l t)

/-- The shared shape of the managers' `update` methods:
`executemany` the row-update over the staged rows whose key already exists
in the persistent table, then `INSERT ... SELECT` the staged rows whose
key is still absent. -/
def commitRows {α κ : Type} [DecidableEq κ] (key : α → κ) (upd : α → α → α)
    (temp persist : List α) : List α :=
  let query := temp.filter (fun t => decide (∃ l ∈ persist, key l = key t))
  let updated := query.foldl (applyUpd key upd) persist
  updated ++ temp.filter (fun t => decide (∀ l ∈ updated, key l ≠ key t))

/-- `INSERT OR IGNORE`: append rows in order, skipping a row whose
UNIQUE key is already present. -/
def insertIgnore {ρ κ : Type} [DecidableEq κ] (key : ρ → κ)
    (staging : List ρ) (data : List ρ) : List ρ :=
  data.foldl
    (fun acc r => if decide (∃ x ∈ acc, key x = key r) then acc
      else acc ++ [r])
    staging

/-! ## Lashinbang manager -/

/-- New/reappeared query: staged rows whose `item_id` is `NOT IN` the
persistent table or `IN` the persistent rows with `update_time < last`. -/
def lashNewQ (last : Rat) (temp persist : List LashRow) : List LashRow :=
  temp.filter (fun t => decide
    ((∀ l ∈ persist, l.item_id ≠ t.item_id) ∨
      (∃ l ∈ persist, l.item_id = t.item_id ∧ l.update_time < last)))

/-- Discount query: inner join on `item_id`, `WHERE l.price > t.price`. -/
def lashDiscountQ (temp persist : List LashRow) :
    List (LashRow × LashRow) :=
  (joinTables (fun t l => t.item_id == l.item_id) temp persist).filter
    (fun p => decide (p.2.price > p.1.price))

/-- Sold query: persistent rows whose `item_id` is `NOT IN` staging and
whose `update_time >= last`. -/
def lashSoldQ (last : Rat) (temp persist : List LashRow) : List LashRow :=
  persist.filter (fun l => decide
    ((∀ t ∈ temp, t.item_id ≠ l.item_id) ∧ last ≤ l.update_time))

/-- `LashinbangManager.compare`: first-run short-circuit on
`info['last'] == 0.0`, otherwise the three queries, with the sold query
only run when `info['error'] == 0`. -/
def LashinbangManager.compare (info : Info)
    (temp persist : List LashRow) :
    Info × List LashRow × List (LashRow × LashRow) × List LashRow :=
  if info.last = 0 then
    ({info with new := 0, discount := 0, sold := 0}, [], [], [])
  else
    let new := lashNewQ info.last temp persist
    let discount := lashDiscountQ temp persist
    let sold := if info.error = 0 then lashSoldQ info.last temp persist
      else []
    let infoN := {info with
      new := new.length
      discount := discount.length
      sold := sold.length}
    (infoN, new, discount, sold)

/-- Row rewrite of `UPDATE lashinbang SET (price, update_time) = (?, ?)`. -/
def lashUpdRow (t l : LashRow) : LashRow :=
  {l with
    price := t.price
    update_time := t.update_time}

/-- `LashinbangManager.update`, without the log append (modelled
separately in the run pipeline). -/
def LashinbangManager.update (temp persist : List LashRow) :
    List LashRow :=
  commitRows LashRow.item_id lashUpdRow temp persist

/-! ## Mercari manager -/

/-- New query: staged rows with `onsale = 1` that are absent from the
persistent table or persisted with `onsale = 0`. -/
def mercNewQ (temp persist : List MercRow) : List MercRow :=
  temp.filter (fun t => decide
    (t.onsale = 1 ∧
      ((∀ l ∈ persist, l.item_id ≠ t.item_id) ∨
        (∃ l ∈ persist, l.item_id = t.item_id ∧ l.onsale = 0))))

/-- Discount query: join on `item_id`, `WHERE old > new AND t.onsale = 1`. -/
def mercDiscountQ (temp persist : List MercRow) :
    List (MercRow × MercRow) :=
  (joinTables (fun t l => t.item_id == l.item_id) temp persist).filter
    (fun p => decide (p.2.price > p.1.price ∧ p.1.onsale = 1))

/-- Sold query: staged rows with `onsale = 0` that are absent from the
persistent table or persisted with `onsale = 1`. -/
def mercSoldQ (temp persist : List MercRow) : List MercRow :=
  temp.filter (fun t => decide
    (t.onsale = 0 ∧
      ((∀ l ∈ persist, l.item_id ≠ t.item_id) ∨
        (∃ l ∈ persist, l.item_id = t.item_id ∧ l.onsale = 1))))

/-- `MercariManager.compare`: first-run short-circuit, then the three
queries; the sold query is run unconditionally. -/
def MercariManager.compare (info : Info) (temp persist : List MercRow) :
    Info × List MercRow × List (MercRow × MercRow) × List MercRow :=
  if info.last = 0 then
    ({info with new := 0, discount := 0, sold := 0}, [], [], [])
  else
    let new := mercNewQ temp persist
    let discount := mercDiscountQ temp persist
    let sold := mercSoldQ temp persist
    let infoN := {info with
      new := new.length
      discount := discount.length
      sold := sold.length}
    (infoN, new, discount, sold)

/-- Row rewrite of `UPDATE mercari SET (price, onsale, update_time)`. -/
def mercUpdRow (t l : MercRow) : MercRow :=
  {l with
    price := t.price
    onsale := t.onsale
    update_time := t.update_time}

/-- `MercariManager.update`, without the log append. -/
def MercariManager.update (temp persist : List MercRow) : List MercRow :=
  commitRows MercRow.item_id mercUpdRow temp persist

/-! ## Yahoo manager -/

/-- New query with the 24-hour reappearance window:
`expire = last - 60 * 60 * 24`, staged rows absent from the persistent
table or persisted with `update_time < expire`. -/
def yahooNewQ (last : Rat) (temp persist : List YahooRow) :
    List YahooRow :=
  temp.filter (fun t => decide
    ((∀ l ∈ persist, l.item_id ≠ t.item_id) ∨
      (∃ l ∈ persist, l.item_id = t.item_id ∧
        l.update_time < last - (60 * 60 * 24))))

/-- Discount query: join on `item_id`,
`WHERE (old_bid > new_bid OR old_full > new_full) AND l.bid_num = 0`. -/
def yahooDiscountQ (temp persist : List YahooRow) :
    List (YahooRow × YahooRow) :=
  (joinTables (fun t l => t.item_id == l.item_id) temp persist).filter
    (fun p => decide
      ((p.2.bid_price > p.1.bid_price ∨ p.2.full_price > p.1.full_price) ∧
        p.2.bid_num = 0))

/-- Bid query: join on `item_id`, `WHERE old_num < new_num`. -/
def yahooBidQ (temp persist : List YahooRow) :
    List (YahooRow × YahooRow) :=
  (joinTables (fun t l => t.item_id == l.item_id) temp persist).filter
    (fun p => decide (p.2.bid_num < p.1.bid_num))

/-- `YahooManager.compare`: first-run short-circuit, then new with the
24-hour window, discount gated on zero persisted bids, and bid-increase. -/
def YahooManager.compare (info : Info) (temp persist : List YahooRow) :
    Info × List YahooRow × List (YahooRow × YahooRow) ×
      List (YahooRow × YahooRow) :=
  if info.last = 0 then
    ({info with new := 0, discount := 0, bid := 0}, [], [], [])
  else
    let new := yahooNewQ info.last temp persist
    let discount := yahooDiscountQ temp persist
    let bid := yahooBidQ temp persist
    let infoN := {info with
      new := new.length
      discount := discount.length
      bid := bid.length}
    (infoN, new, discount, bid)

/-- Row rewrite of `UPDATE yahoo SET (bid_price, full_price, end,
bid_num, update_time)`. -/
def yahooUpdRow (t l : YahooRow) : YahooRow :=
  {l with
    bid_price := t.bid_price
    full_price := t.full_price
    end_time := t.end_time
    bid_num := t.bid_num
    update_time := t.update_time}

/-- `YahooManager.update`, without the log append. -/
def YahooManager.update (temp persist : List YahooRow) : List YahooRow :=
  commitRows YahooRow.item_id yahooUpdRow temp persist

/-! ## Staging writes and the run pipeline -/

/-- `UPDATE *_temp SET (record_time, update_time) = (?, ?)` with this
run's timestamp, for lashinbang rows. -/
def lashStampRows (time : Rat) (rows : List LashRow) : List LashRow :=
  rows.map (fun r => {r with record_time := time, update_time := time})

/-- Timestamp stamping for mercari staging rows. -/
def mercStampRows (time : Rat) (rows : List MercRow) : List MercRow :=
  rows.map (fun r => {r with record_time := time, update_time := time})

/-- Timestamp stamping for yahoo staging rows. -/
def yahooStampRows (time : Rat) (rows : List YahooRow) : List YahooRow :=
  rows.map (fun r => {r with record_time := time, update_time := time})

/-- `LashinbangManager._to_table`: try the bulk `INSERT OR IGNORE`; on
failure roll back (staging keeps its pre-call state) and re-raise
(`false` flag); on success stamp the timestamps and commit. -/
def LashinbangManager.to_table (insertOk : Bool) (time : Rat)
    (data staging : List LashRow) : List LashRow × Bool :=
  if insertOk then
    (lashStampRows time (insertIgnore LashRow.item_id staging data), true)
  else (staging, false)

/-- `MercariManager._to_table`, same structure. -/
def MercariManager.to_table (insertOk : Bool) (time : Rat)
    (data staging : List MercRow) : List MercRow × Bool :=
  if insertOk then
    (mercStampRows time (insertIgnore MercRow.item_id staging data), true)
  else (staging, false)

/-- `YahooManager._to_table`, same structure. -/
def YahooManager.to_table (insertOk : Bool) (time : Rat)
    (data staging : List YahooRow) : List YahooRow × Bool :=
  if insertOk then
    (yahooStampRows time (insertIgnore YahooRow.item_id staging data),
      true)
  else (staging, false)

/-- Modelled from the spec: `CrawlerManager._get_update_time` is defined
in `bot_classutil.py`, which is not among the available sources.  The
spec states that the append-only log "is the sole source of the watermark
for the next run" and that the watermark is "the timestamp of the last
successfully committed run", so the watermark of a site is the `time`
field of that site's most recent log row, and `0` when the site has no
log row yet (first run). -/
def lastWatermark (site : String) (log : List LogEntry) : Rat :=
  match (log.filter (fun e => decide (e.site = site))).getLast? with
  | some e => e.time
  | none => 0

/-- Log row appended by `LashinbangManager.update` /
`MercariManager.update`. -/
def logOf (i : Info) : LogEntry :=
  ⟨i.site, i.time, i.error, i.page, i.count, i.new, i.discount, i.sold⟩

/-- Log row appended by `YahooManager.update`: the bid count is recorded
in the `sold` column. -/
def yahooLogOf (i : Info) : LogEntry :=
  ⟨i.site, i.time, i.error, i.page, i.count, i.new, i.discount, i.bid⟩

/-- State a single site's `main` touches: its staging table, its
persistent table, the shared log, plus whether the run aborted with an
exception before diff/commit. -/
structure SiteResult (ρ : Type) where
  temp : List ρ
  persist : List ρ
  log : List LogEntry
  aborted : Bool
deriving DecidableEq

/-- Initial `self.info` of a manager for one run: `site` fixed by the
subclass, `time` this run's timestamp, `last` read from the log,
`error`/`page`/`count` set by `get_item`, counters still zero. -/
def initInfo (site : String) (time last : Rat) (err page count : Nat) :
    Info :=
  ⟨site, time, last, err, page, count, 0, 0, 0, 0⟩

/-- `bot_lashinbang_crawler.main`: construct the manager (staging table
recreated empty, watermark read from the log), `get_item` (fetch, parse,
`_to_table`), `get_message` (runs `compare`), and only when `update` is
true run `LashinbangManager.update` (which also appends the log row).
`insertOk` is whether the staging bulk insert succeeds; when it fails the
exception propagates and neither `compare` nor `update` runs. -/
def lashinbangMain (insertOk update : Bool) (time : Rat) (err page : Nat)
    (data : List LashRow) (persist : List LashRow) (log : List LogEntry) :
    SiteResult LashRow :=
  let last := lastWatermark ("lashinbang") log
  let tres := LashinbangManager.to_table insertOk time data []
  if tres.2 then
    let info0 := initInfo ("lashinbang") time last err page data.length
    let cres := LashinbangManager.compare info0 tres.1 persist
    if update then
      ⟨tres.1, LashinbangManager.update tres.1 persist,
        log ++ [logOf cres.1], false⟩
    else ⟨tres.1, persist, log, false⟩
  else ⟨tres.1, persist, log, true⟩

/-- `bot_mercari_crawler.main`, same pipeline. -/
def mercariMain (insertOk update : Bool) (time : Rat) (err page : Nat)
    (data : List MercRow) (persist : List MercRow) (log : List LogEntry) :
    SiteResult MercRow :=
  let last := lastWatermark ("mercari") log
  let tres := MercariManager.to_table insertOk time data []
  if tres.2 then
    let info0 := initInfo ("mercari") time last err page data.length
    let cres := MercariManager.compare info0 tres.1 persist
    if update then
      ⟨tres.1, MercariManager.update tres.1 persist,
        log ++ [logOf cres.1], false⟩
    else ⟨tres.1, persist, log, false⟩
  else ⟨tres.1, persist, log, true⟩

/-- `bot_yahoo_crawler.main`, same pipeline. -/
def yahooMain (insertOk update : Bool) (time : Rat) (err page : Nat)
    (data : List YahooRow) (persist : List YahooRow)
    (log : List LogEntry) : SiteResult YahooRow :=
  let last := lastWatermark ("yahoo") log
  let tres := YahooManager.to_table insertOk time data []
  if tres.2 then
    let info0 := initInfo ("yahoo") time last err page data.length
    let cres := YahooManager.compare info0 tres.1 persist
    if update then
      ⟨tres.1, YahooManager.update tres.1 persist,
        log ++ [yahooLogOf cres.1], false⟩
    else ⟨tres.1, persist, log, false⟩
  else ⟨tres.1, persist, log, true⟩

/-- The whole SQLite database file shared by the three sites. -/
structure DB where
  lashinbang : List LashRow
  lashinbang_temp : List LashRow
  mercari : List MercRow
  mercari_temp : List MercRow
  yahoo : List YahooRow
  yahoo_temp : List YahooRow
  log : List LogEntry
deriving DecidableEq

/-- `bot_lashinbang_crawler.main` acting on the shared database (a
completed, non-aborting run: the staging insert succeeds). -/
def lashinbangMainDB (update : Bool) (time : Rat) (err page : Nat)
    (data : List LashRow) (db : DB) : DB :=
  let r := lashinbangMain true update time err page data db.lashinbang
    db.log
  {db with
    lashinbang := r.persist
    lashinbang_temp := r.temp
    log := r.log}

/-- `bot_mercari_crawler.main` acting on the shared database. -/
def mercariMainDB (update : Bool) (time : Rat) (err page : Nat)
    (data : List MercRow) (db : DB) : DB :=
  let r := mercariMain true update time err page data db.mercari db.log
  {db with
    mercari := r.persist
    mercari_temp := r.temp
    log := r.log}

/-- `bot_yahoo_crawler.main` acting on the shared database. -/
def yahooMainDB (update : Bool) (time : Rat) (err page : Nat)
    (data : List YahooRow) (db : DB) : DB :=
  let r := yahooMain true update time err page data db.yahoo db.log
  {db with
    yahoo := r.persist
    yahoo_temp := r.temp
    log := r.log}

/-- `bot_autorun.main`: runs the three site `main`s in order on the same
database file, each invoked without the `update` argument, which
defaults to `False`. -/
def autorunMain (tl tm ty : Rat) (el pl em pm ey py : Nat)
    (dl : List LashRow) (dm : List MercRow) (dy : List YahooRow)
    (db : DB) : DB :=
  yahooMainDB false ty ey py dy
    (mercariMainDB false tm em pm dm
      (lashinbangMainDB false tl el pl dl db))

/-! ## Concrete sample data -/

def lashT0 : LashRow := ⟨1, "x", "u", "v", 50, 2, 2⟩

def lashL0 : LashRow := ⟨1, "x", "u", "v", 100, 1, 1⟩

def mercSold0 : MercRow := ⟨"m1", "s", "x", "u", "v", 10, 0, 1, 1⟩

def mercOn1 : MercRow := ⟨"m2", "s", "x", "u", "v", 10, 1, 2, 2⟩

def mercL9 : MercRow := ⟨"m9", "s", "x", "u", "v", 30, 1, 1, 1⟩

def yahooT1 : YahooRow :=
  ⟨"y1", "s", "x", "u", "v", 40, 90, 5, 0, 200000, 200000⟩

def yahooOld1 : YahooRow := ⟨"y1", "s", "x", "u", "v", 50, 100, 5, 0, 1, 1⟩

def infoLashErr : Info := ⟨"lashinbang", 2, 1, 1, 1, 1, 0, 0, 0, 0⟩

def infoLashOk : Info := ⟨"lashinbang", 2, 1, 0, 1, 1, 0, 0, 0, 0⟩

def infoMercErr : Info := ⟨"mercari", 2, 1, 1, 1, 1, 0, 0, 0, 0⟩

def infoYahoo : Info := ⟨"yahoo", 200000, 100000, 0, 1, 1, 0, 0, 0, 0⟩

def infoFirst : Info := ⟨"lashinbang", 5, 0, 0, 0, 0, 7, 8, 9, 4⟩

/-! ## Helper lemmas -/

theorem mem_joinTables {ρ : Type} (keq : ρ → ρ → Bool) (temp tbl : List ρ)
    (q : ρ × ρ) : q ∈ joinTables keq temp tbl ↔
      q.1 ∈ temp ∧ q.2 ∈ tbl ∧ keq q.1 q.2 = true := by
  obtain ⟨t, l⟩ := q
  simp only [joinTables, List.mem_flatMap, List.mem_map, List.mem_filter,
    Prod.mk.injEq]
  constructor
  · rintro ⟨a, ha, b, ⟨hb, hk⟩, rfl, rfl⟩
    exact ⟨ha, hb, hk⟩
  · rintro ⟨ht, hl, hk⟩
    exact ⟨t, ht, l, ⟨hl, hk⟩, rfl, rfl⟩

theorem foldl_applyUpd {α κ : Type} [DecidableEq κ] (key : α → κ)
    (upd : α → α → α) (qs tbl : List α) :
    qs.foldl (applyUpd key upd) tbl
      = tbl.map (fun l => qs.foldl (updRow key upd) l) := by
  induction qs generalizing tbl with
  | nil => simp
  | cons q qs ih =>
    simp only [List.foldl_cons, applyUpd]
    rw [ih, List.map_map]
    rfl

theorem foldl_updRow_of_notMem {α κ : Type} [DecidableEq κ] (key : α → κ)
    (upd : α → α → α) (qs : List α) (l : α)
    (h : ∀ t ∈ qs, key l ≠ key t) : qs.foldl (updRow key upd) l = l := by
  induction qs with
  | nil => rfl
  | cons q qs ih =>
    have hq : key l ≠ key q := h q (List.mem_cons_self q qs)
    simp only [List.foldl_cons, updRow, if_neg hq]
    exact ih (fun t ht => h t (List.mem_cons_of_mem q ht))

theorem key_foldl_updRow {α κ : Type} [DecidableEq κ] (key : α → κ)
    (upd : α → α → α) (hupd : ∀ t r, key (upd t r) = key r) (qs : List α)
    (l : α) : key (qs.foldl (updRow key upd) l) = key l := by
  induction qs generalizing l with
  | nil => rfl
  | cons q qs ih =>
    simp only [List.foldl_cons]
    rw [ih]
    by_cases h : key l = key q
    · simp [updRow, if_pos h, hupd]
    · simp [updRow, if_neg h]

theorem foldl_updRow_uniqueMatch {α κ : Type} [DecidableEq κ]
    (key : α → κ) (upd : α → α → α)
    (hupd : ∀ t r, key (upd t r) = key r) (qs : List α)
    (hnd : (qs.map key).Nodup) (t : α) (ht : t ∈ qs) (l : α)
    (hk : key l = key t) : qs.foldl (updRow key upd) l = upd t l := by
  induction qs with
  | nil => cases ht
  | cons q qs ih =>
    simp only [List.map_cons, List.nodup_cons] at hnd
    obtain ⟨hq_notin, hnd'⟩ := hnd
    simp only [List.foldl_cons]
    rcases List.mem_cons.mp ht with heq | ht'
    · subst heq
      rw [updRow, if_pos hk]
      apply foldl_updRow_of_notMem
      intro u hu
      rw [hupd, hk]
      intro hcontra
      exact hq_notin (hcontra ▸ List.mem_map_of_mem key hu)
    · have hne : key l ≠ key q := by
        intro h
        apply hq_notin
        rw [← h, hk]
        exact List.mem_map_of_mem key ht'
      rw [updRow, if_neg hne]
      exact ih hnd' ht'

theorem commitRows_mem_untouched {α κ : Type} [DecidableEq κ]
    (key : α → κ) (upd : α → α → α) (temp persist : List α) (l : α)
    (hl : l ∈ persist) (h : ∀ t ∈ temp, key t ≠ key l) :
    l ∈ commitRows key upd temp persist := by
  unfold commitRows
  apply List.mem_append_left
  rw [foldl_applyUpd]
  refine List.mem_map.mpr ⟨l, hl, ?_⟩
  apply foldl_updRow_of_notMem
  intro t ht
  exact fun hc => h t (List.mem_of_mem_filter ht) (hc ▸ rfl)

theorem commitRows_mem_updated {α κ : Type} [DecidableEq κ]
    (key : α → κ) (upd : α → α → α)
    (hupd : ∀ t r, key (upd t r) = key r) (temp persist : List α)
    (t l : α) (hl : l ∈ persist) (ht : t ∈ temp) (hk : key t = key l)
    (hnd : (temp.map key).Nodup) :
    upd t l ∈ commitRows key upd temp persist := by
  unfold commitRows
  apply List.mem_append_left
  rw [foldl_applyUpd]
  refine List.mem_map.mpr ⟨l, hl, ?_⟩
  have htq : t ∈ temp.filter
      (fun t => decide (∃ l ∈ persist, key l = key t)) := by
    refine List.mem_filter.mpr ⟨ht, ?_⟩
    exact decide_eq_true ⟨l, hl, hk.symm⟩
  have hndq : ((temp.filter
      (fun t => decide (∃ l ∈ persist, key l = key t))).map key).Nodup :=
    hnd.sublist (List.Sublist.map key (List.filter_sublist temp))
  exact foldl_updRow_uniqueMatch key upd hupd _ hndq t htq l hk.symm

theorem commitRows_key_mem {α κ : Type} [DecidableEq κ] (key : α → κ)
    (upd : α → α → α) (hupd : ∀ t r, key (upd t r) = key r)
    (temp persist : List α) (l : α) (hl : l ∈ persist) :
    key l ∈ (commitRows key upd temp persist).map key := by
  unfold commitRows
  rw [List.map_append]
  apply List.mem_append_left
  rw [foldl_applyUpd, List.map_map]
  refine List.mem_map.mpr ⟨l, hl, ?_⟩
  exact key_foldl_updRow key upd hupd _ l

theorem lashCompare_eq (info : Info) (temp persist : List LashRow)
    (h : info.last ≠ 0) :
    LashinbangManager.compare info temp persist =
      ({info with new := (lashNewQ info.last temp persist).length, discount := (lashDiscountQ temp persist).length, sold := (if info.error = 0 then lashSoldQ info.last temp persist else []).length},
        lashNewQ info.last temp persist, lashDiscountQ temp persist,
        if info.error = 0 then lashSoldQ info.last temp persist
          else []) := by
  simp only [LashinbangManager.compare, if_neg h]

theorem mercCompare_eq (info : Info) (temp persist : List MercRow)
    (h : info.last ≠ 0) :
    MercariManager.compare info temp persist =
      ({info with new := (mercNewQ temp persist).length, discount := (mercDiscountQ temp persist).length, sold := (mercSoldQ temp persist).length},
        mercNewQ temp persist, mercDiscountQ temp persist,
        mercSoldQ temp persist) := by
  simp only [MercariManager.compare, if_neg h]

theorem yahooCompare_eq (info : Info) (temp persist : List YahooRow)
    (h : info.last ≠ 0) :
    YahooManager.compare info temp persist =
      ({info with new := (yahooNewQ info.last temp persist).length, discount := (yahooDiscountQ temp persist).length, bid := (yahooBidQ temp persist).length},
        yahooNewQ info.last temp persist, yahooDiscountQ temp persist,
        yahooBidQ temp persist) := by
  simp only [YahooManager.compare, if_neg h]

theorem mem_lashNewQ (last : Rat) (temp persist : List LashRow)
    (t : LashRow) : t ∈ lashNewQ last temp persist ↔
      t ∈ temp ∧ ((∀ l ∈ persist, l.item_id ≠ t.item_id) ∨
        ∃ l ∈ persist, l.item_id = t.item_id ∧ l.update_time < last) := by
  simp [lashNewQ, List.mem_filter]

theorem mem_mercNewQ (temp persist : List MercRow) (t : MercRow) :
    t ∈ mercNewQ temp persist ↔
      t ∈ temp ∧ t.onsale = 1 ∧
        ((∀ l ∈ persist, l.item_id ≠ t.item_id) ∨
          ∃ l ∈ persist, l.item_id = t.item_id ∧ l.onsale = 0) := by
  simp [mercNewQ, List.mem_filter, and_assoc]

theorem mem_mercSoldQ (temp persist : List MercRow) (t : MercRow) :
    t ∈ mercSoldQ temp persist ↔
      t ∈ temp ∧ t.onsale = 0 ∧
        ((∀ l ∈ persist, l.item_id ≠ t.item_id) ∨
          ∃ l ∈ persist, l.item_id = t.item_id ∧ l.onsale = 1) := by
  simp [mercSoldQ, List.mem_filter, and_assoc]

theorem mem_yahooNewQ (last : Rat) (temp persist : List YahooRow)
    (t : YahooRow) : t ∈ yahooNewQ last temp persist ↔
      t ∈ temp ∧ ((∀ l ∈ persist, l.item_id ≠ t.item_id) ∨
        ∃ l ∈ persist, l.item_id = t.item_id ∧
          l.update_time < last - (60 * 60 * 24)) := by
  simp [yahooNewQ, List.mem_filter]

theorem mem_lashCompare_new (info : Info) (temp persist : List LashRow)
    (t : LashRow) (h : info.last ≠ 0) :
    t ∈ (LashinbangManager.compare info temp persist).2.1 ↔
      t ∈ temp ∧ ((∀ l ∈ persist, l.item_id ≠ t.item_id) ∨
        ∃ l ∈ persist, l.item_id = t.item_id ∧
          l.update_time < info.last) := by
  rw [lashCompare_eq info temp persist h]
  exact mem_lashNewQ info.last temp persist t

theorem mem_mercCompare_new (info : Info) (temp persist : List MercRow)
    (t : MercRow) (h : info.last ≠ 0) :
    t ∈ (MercariManager.compare info temp persist).2.1 ↔
      t ∈ temp ∧ t.onsale = 1 ∧
        ((∀ l ∈ persist, l.item_id ≠ t.item_id) ∨
          ∃ l ∈ persist, l.item_id = t.item_id ∧ l.onsale = 0) := by
  rw [mercCompare_eq info temp persist h]
  exact mem_mercNewQ temp persist t

theorem mem_yahooCompare_new (info : Info) (temp persist : List YahooRow)
    (t : YahooRow) (h : info.last ≠ 0) :
    t ∈ (YahooManager.compare info temp persist).2.1 ↔
      t ∈ temp ∧ ((∀ l ∈ persist, l.item_id ≠ t.item_id) ∨
        ∃ l ∈ persist, l.item_id = t.item_id ∧
          l.update_time < info.last - (60 * 60 * 24)) := by
  rw [yahooCompare_eq info temp persist h]
  exact mem_yahooNewQ info.last temp persist t

/-! ## Claims -/

/-- C5: for every staging snapshot and persistent store, if the watermark
is zero (`info['last'] == 0.0`) then `compare()` in every adapter returns
empty new, discount and sold/bid sets and sets all classification counts
in the run metadata to 0, without comparing any rows. -/
theorem C5_first_run_suppression :
    (∀ (info : Info) (temp persist : List LashRow), info.last = 0 →
      LashinbangManager.compare info temp persist =
        ({info with new := 0, discount := 0, sold := 0}, [], [], [])) ∧
    (∀ (info : Info) (temp persist : List MercRow), info.last = 0 →
      MercariManager.compare info temp persist =
        ({info with new := 0, discount := 0, sold := 0}, [], [], [])) ∧
    (∀ (info : Info) (temp persist : List YahooRow), info.last = 0 →
      YahooManager.compare info temp persist =
        ({info with new := 0, discount := 0, bid := 0}, [], [], [])) := by
  refine ⟨?_, ?_, ?_⟩ <;> intro info temp persist h <;>
    simp [LashinbangManager.compare, MercariManager.compare,
      YahooManager.compare, h]

/-- Witness for C5 at a concrete first-run input. -/
theorem C5_first_run_suppression_witness :
    infoFirst.last = 0 ∧
    LashinbangManager.compare infoFirst [lashT0] [lashL0] =
      ({infoFirst with new := 0, discount := 0, sold := 0}, [], [], []) :=
  ⟨rfl, C5_first_run_suppression.1 infoFirst [lashT0] [lashL0] rfl⟩

/-- C8: for every keyword and every page number strictly greater than the
declared page limit (`MAX_PAGE_LIMIT = 12`), `LashinbangCrawler.get_one`
raises `ValueError` before performing any network request for that page
(the `requested` flag is `false` and the result does not depend on the
network outcome), rather than silently clamping the page number or
retrying. -/
theorem C8_page_limit_rejected (page : Nat) (h : MAX_PAGE_LIMIT < page)
    (net : FetchOutcome) (ec : Nat) :
    LashinbangCrawler.get_one page net ec =
      ⟨ec + 1, false, FetchResult.raised FetchErr.valueError⟩ := by
  simp only [LashinbangCrawler.get_one, gt_iff_lt, if_pos h]

/-- Witness for C8 at page 13. -/
theorem C8_page_limit_rejected_witness :
    MAX_PAGE_LIMIT < 13 ∧
    LashinbangCrawler.get_one 13 FetchOutcome.timeout 0 =
      ⟨1, false, FetchResult.raised FetchErr.valueError⟩ :=
  ⟨by decide, C8_page_limit_rejected 13 (by decide) FetchOutcome.timeout 0⟩

/-- C6, counterexample to the claim as stated: page 1 times out, the
exception propagates (first conjunct shows the page yields no text), yet
the shared error counter stays at zero after the call, in both the
lashinbang and the yahoo crawler, so the run's error count is not nonzero
whenever a page timed out. -/
theorem C6_timeout_counterexample :
    (LashinbangCrawler.get_one 1 FetchOutcome.timeout 0).outcome =
      FetchResult.raised FetchErr.timeoutErr ∧
    (LashinbangCrawler.get_one 1 FetchOutcome.timeout 0).error_count = 0 ∧
    (YahooCrawler.get_one FetchOutcome.timeout 0).outcome =
      FetchResult.raised FetchErr.timeoutErr ∧
    (YahooCrawler.get_one FetchOutcome.timeout 0).error_count = 0 ∧
    (LashinbangCrawler.get_one 1 FetchOutcome.httpError 0).error_count
      = 1 := by
  decide

/-- C6 (amended): a timed-out page request propagates its exception to
the caller unchanged (so the page is recorded as unavailable) and is not
retried, but unlike an HTTP-error request it does not increment the
shared error counter; only HTTP errors (and lashinbang's page-limit
check) do. -/
theorem C6_timeout_uncounted :
    (∀ (page ec : Nat), page ≤ MAX_PAGE_LIMIT →
      LashinbangCrawler.get_one page FetchOutcome.timeout ec =
        ⟨ec, true, FetchResult.raised FetchErr.timeoutErr⟩ ∧
      LashinbangCrawler.get_one page FetchOutcome.httpError ec =
        ⟨ec + 1, true, FetchResult.raised FetchErr.httpError⟩) ∧
    (∀ ec : Nat,
      YahooCrawler.get_one FetchOutcome.timeout ec =
        ⟨ec, true, FetchResult.raised FetchErr.timeoutErr⟩ ∧
      YahooCrawler.get_one FetchOutcome.httpError ec =
        ⟨ec + 1, true, FetchResult.raised FetchErr.httpError⟩) := by
  constructor
  · intro page ec h
    have hn : ¬ page > MAX_PAGE_LIMIT := Nat.not_lt.mpr h
    constructor <;> simp [LashinbangCrawler.get_one, hn]
  · intro ec
    exact ⟨rfl, rfl⟩

/-- Witness for the amended C6 at page 1. -/
theorem C6_timeout_uncounted_witness :
    (1 : Nat) ≤ MAX_PAGE_LIMIT ∧
    LashinbangCrawler.get_one 1 FetchOutcome.timeout 5 =
      ⟨5, true, FetchResult.raised FetchErr.timeoutErr⟩ :=
  ⟨by decide, (C6_timeout_uncounted.1 1 5 (by decide)).1⟩

/-- C1, counterexample to the claim as stated: a run of the mercari
adapter with nonzero watermark and a nonzero fetch-error count (and an
id, `m9`, present in persistent but missing from staging) still returns
a nonempty sold set, because `MercariManager.compare` computes its sold
set unconditionally. -/
theorem C1_sold_suppression_counterexample :
    infoMercErr.last ≠ 0 ∧ infoMercErr.error ≠ 0 ∧
    (∀ t ∈ [mercSold0], t.item_id ≠ mercL9.item_id) ∧
    (MercariManager.compare infoMercErr [mercSold0] [mercL9]).2.2.2
      ≠ [] := by
  decide

/-- C1 (amended): in the lashinbang adapter, for every run with a
nonzero watermark, a nonzero fetch-error count forces the sold/ended set
returned by `compare()` to be empty and the reported sold count to 0,
regardless of which ids are missing from staging; the mercari adapter's
sold set, by contrast, is derived from the staged rows' `onsale` flags
and does not depend on the error count at all. -/
theorem C1_sold_suppression :
    (∀ (info : Info) (temp persist : List LashRow), info.last ≠ 0 →
      info.error ≠ 0 →
      (LashinbangManager.compare info temp persist).2.2.2 = [] ∧
      (LashinbangManager.compare info temp persist).1.sold = 0) ∧
    (∀ (info : Info) (temp persist : List MercRow),
      (MercariManager.compare info temp persist).2.2.2 =
        (MercariManager.compare {info with error := 0}
          temp persist).2.2.2) := by
  constructor
  · intro info temp persist h herr
    rw [lashCompare_eq info temp persist h]
    simp [if_neg herr]
  · intro info temp persist
    by_cases h : info.last = 0
    · have h' : ({info with error := 0} : Info).last = 0 := h
      simp [MercariManager.compare, h, h']
    · have h' : ({info with error := 0} : Info).last ≠ 0 := h
      rw [mercCompare_eq info temp persist h,
        mercCompare_eq {info with error := 0} temp persist h']

/-- Witness for the amended C1: a lashinbang run with an error and a
persistent row missing from staging reports nothing sold. -/
theorem C1_sold_suppression_witness :
    infoLashErr.last ≠ 0 ∧ infoLashErr.error ≠ 0 ∧
    (LashinbangManager.compare infoLashErr [] [lashL0]).2.2.2 = [] ∧
    (LashinbangManager.compare infoLashErr [] [lashL0]).1.sold = 0 :=
  ⟨by decide, by decide,
    (C1_sold_suppression.1 infoLashErr [] [lashL0] (by decide)
      (by decide)).1,
    (C1_sold_suppression.1 infoLashErr [] [lashL0] (by decide)
      (by decide)).2⟩

/-- C2, counterexample to the claim as stated: in the mercari adapter a
staged row whose id is absent from the persistent store is nevertheless
not in the returned new set, because its `onsale` flag is 0 — the
adapter's new rule is based on `onsale`, not on `update_time` against
the watermark. -/
theorem C2_new_reappeared_counterexample :
    infoMercErr.last ≠ 0 ∧ mercSold0 ∈ [mercSold0] ∧
    (∀ l ∈ ([] : List MercRow), l.item_id ≠ mercSold0.item_id) ∧
    mercSold0 ∉ (MercariManager.compare infoMercErr [mercSold0] []).2.1
    := by
  decide

/-- C2 (amended): for every run with a nonzero watermark, the lashinbang
new/reappeared set consists exactly of the staged rows that are either
absent from the persistent store or present in it with persistent
`update_time` older than the watermark; the mercari new set instead
consists exactly of the staged rows with `onsale = 1` that are either
absent from the persistent store or persisted with `onsale = 0`. -/
theorem C2_new_reappeared :
    (∀ (info : Info) (temp persist : List LashRow), info.last ≠ 0 →
      ∀ t : LashRow,
        (t ∈ (LashinbangManager.compare info temp persist).2.1 ↔
          t ∈ temp ∧ ((∀ l ∈ persist, l.item_id ≠ t.item_id) ∨
            ∃ l ∈ persist, l.item_id = t.item_id ∧
              l.update_time < info.last))) ∧
    (∀ (info : Info) (temp persist : List MercRow), info.last ≠ 0 →
      ∀ t : MercRow,
        (t ∈ (MercariManager.compare info temp persist).2.1 ↔
          t ∈ temp ∧ t.onsale = 1 ∧
            ((∀ l ∈ persist, l.item_id ≠ t.item_id) ∨
              ∃ l ∈ persist, l.item_id = t.item_id ∧ l.onsale = 0))) := by
  constructor
  · intro info temp persist h t
    exact mem_lashCompare_new info temp persist t h
  · intro info temp persist h t
    exact mem_mercCompare_new info temp persist t h

/-- Witness for the amended C2: a staged on-sale mercari row absent from
the persistent store is classified as new. -/
theorem C2_new_reappeared_witness :
    mercOn1 ∈ (MercariManager.compare infoMercErr [mercOn1] []).2.1 :=
  (C2_new_reappeared.2 infoMercErr [mercOn1] [] (by decide) mercOn1).mpr
    ⟨List.mem_singleton.mpr rfl, rfl, Or.inl (by decide)⟩

/-- C3: for every run with a nonzero watermark, an id is in the discount
set only if it is present in both staging and persistent and the
persisted price is strictly greater than the staged price (for yahoo:
one of the two persisted price fields strictly greater than its staged
counterpart), so an equal or increased price is never a discount; in the
bid-aware auction adapter (yahoo) additionally only if the persisted
row's bid count equals zero. -/
theorem C3_discount_strict :
    (∀ (info : Info) (temp persist : List LashRow)
        (p : LashRow × LashRow), info.last ≠ 0 →
      p ∈ (LashinbangManager.compare info temp persist).2.2.1 →
      p.1 ∈ temp ∧ p.2 ∈ persist ∧ p.1.item_id = p.2.item_id ∧
        p.2.price > p.1.price) ∧
    (∀ (info : Info) (temp persist : List MercRow)
        (p : MercRow × MercRow), info.last ≠ 0 →
      p ∈ (MercariManager.compare info temp persist).2.2.1 →
      p.1 ∈ temp ∧ p.2 ∈ persist ∧ p.1.item_id = p.2.item_id ∧
        p.2.price > p.1.price) ∧
    (∀ (info : Info) (temp persist : List YahooRow)
        (p : YahooRow × YahooRow), info.last ≠ 0 →
      p ∈ (YahooManager.compare info temp persist).2.2.1 →
      p.1 ∈ temp ∧ p.2 ∈ persist ∧ p.1.item_id = p.2.item_id ∧
        (p.2.bid_price > p.1.bid_price ∨ p.2.full_price > p.1.full_price)
        ∧ p.2.bid_num = 0) := by
  refine ⟨?_, ?_, ?_⟩
  · intro info temp persist p h hp
    rw [lashCompare_eq info temp persist h] at hp
    have hp' : p ∈ lashDiscountQ temp persist := hp
    obtain ⟨hj, hc⟩ := List.mem_filter.mp hp'
    obtain ⟨h1, h2, h3⟩ := (mem_joinTables _ _ _ _).mp hj
    exact ⟨h1, h2, by simpa using h3, by simpa using hc⟩
  · intro info temp persist p h hp
    rw [mercCompare_eq info temp persist h] at hp
    have hp' : p ∈ mercDiscountQ temp persist := hp
    obtain ⟨hj, hc⟩ := List.mem_filter.mp hp'
    obtain ⟨h1, h2, h3⟩ := (mem_joinTables _ _ _ _).mp hj
    exact ⟨h1, h2, by simpa using h3, (decide_eq_true_iff.mp hc).1⟩
  · intro info temp persist p h hp
    rw [yahooCompare_eq info temp persist h] at hp
    have hp' : p ∈ yahooDiscountQ temp persist := hp
    obtain ⟨hj, hc⟩ := List.mem_filter.mp hp'
    obtain ⟨h1, h2, h3⟩ := (mem_joinTables _ _ _ _).mp hj
    have hc' := decide_eq_true_iff.mp hc
    exact ⟨h1, h2, by simpa using h3, hc'.1, hc'.2⟩

/-- Witness for C3: a concrete strict lashinbang price drop is in the
discount set and satisfies the stated conditions. -/
theorem C3_discount_strict_witness :
    lashT0 ∈ [lashT0] ∧ lashL0 ∈ [lashL0] ∧
    lashT0.item_id = lashL0.item_id ∧ lashL0.price > lashT0.price :=
  C3_discount_strict.1 infoLashOk [lashT0] [lashL0] (lashT0, lashL0)
    (by decide) (by decide)

/-- C7: in the auction adapter (`YahooManager`), for every run with a
nonzero watermark, a staged id already present in the persistent store is
classified as new/reappeared if and only if some persistent row with
that id has `update_time` older than the watermark minus the fixed
24-hour window (86400 seconds); a staged id absent from the persistent
store is always classified as new. -/
theorem C7_yahoo_reappearance_window (info : Info)
    (temp persist : List YahooRow) (t : YahooRow) (h : info.last ≠ 0)
    (ht : t ∈ temp) :
    ((∃ l ∈ persist, l.item_id = t.item_id) →
      (t ∈ (YahooManager.compare info temp persist).2.1 ↔
        ∃ l ∈ persist, l.item_id = t.item_id ∧
          l.update_time < info.last - 86400)) ∧
    ((∀ l ∈ persist, l.item_id ≠ t.item_id) →
      t ∈ (YahooManager.compare info temp persist).2.1) := by
  have h86 : info.last - (60 * 60 * 24) = info.last - 86400 := by
    norm_num
  constructor
  · intro hex
    rw [mem_yahooCompare_new info temp persist t h, h86]
    constructor
    · rintro ⟨-, hca | hex2⟩
      · obtain ⟨l, hl, hid⟩ := hex
        exact absurd hid (hca l hl)
      · exact hex2
    · intro hex2
      exact ⟨ht, Or.inr hex2⟩
  · intro hall
    rw [mem_yahooCompare_new info temp persist t h]
    exact ⟨ht, Or.inl hall⟩

/-- Witness for C7: a staged id persisted with a watermark-minus-25-hour
old `update_time` is classified as new. -/
theorem C7_yahoo_reappearance_window_witness :
    yahooT1 ∈ (YahooManager.compare infoYahoo [yahooT1] [yahooOld1]).2.1
    :=
  ((C7_yahoo_reappearance_window infoYahoo [yahooT1] [yahooOld1] yahooT1
      (by norm_num [infoYahoo]) (List.mem_singleton.mpr rfl)).1
    ⟨yahooOld1, List.mem_singleton.mpr rfl, rfl⟩).mpr
    ⟨yahooOld1, List.mem_singleton.mpr rfl, rfl,
      by norm_num [yahooOld1, infoYahoo]⟩

/-- C4: for every persistent-store state and staging content, after
`update()` every id present in the persistent table before the call is
still present: a row whose id is in staging has its mutable fields and
`update_time` overwritten with the staged values (and every other field
unchanged), a row whose id is not in staging is left completely
unchanged, and no persistent row is ever deleted.  Stated for the
lashinbang adapter (mutable fields: `price`) and the mercari adapter
(mutable fields: `price`, `onsale`); staged ids are unique by the
staging table's UNIQUE constraint. -/
theorem C4_commit_nondestructive :
    (∀ (temp persist : List LashRow) (l : LashRow), l ∈ persist →
      ((∀ t ∈ temp, t.item_id ≠ l.item_id) →
        l ∈ LashinbangManager.update temp persist) ∧
      (∀ t ∈ temp, t.item_id = l.item_id →
        (temp.map LashRow.item_id).Nodup →
        {l with price := t.price, update_time := t.update_time} ∈
          LashinbangManager.update temp persist) ∧
      l.item_id ∈
        (LashinbangManager.update temp persist).map LashRow.item_id) ∧
    (∀ (temp persist : List MercRow) (l : MercRow), l ∈ persist →
      ((∀ t ∈ temp, t.item_id ≠ l.item_id) →
        l ∈ MercariManager.update temp persist) ∧
      (∀ t ∈ temp, t.item_id = l.item_id →
        (temp.map MercRow.item_id).Nodup →
        {l with price := t.price, onsale := t.onsale, update_time := t.update_time} ∈
          MercariManager.update temp persist) ∧
      l.item_id ∈
        (MercariManager.update temp persist).map MercRow.item_id) := by
  constructor
  · intro temp persist l hl
    refine ⟨?_, ?_, ?_⟩
    · intro h
      exact commitRows_mem_untouched LashRow.item_id lashUpdRow temp
        persist l hl h
    · intro t ht hk hnd
      exact commitRows_mem_updated LashRow.item_id lashUpdRow
        (fun _ _ => rfl) temp persist t l hl ht hk hnd
    · exact commitRows_key_mem LashRow.item_id lashUpdRow
        (fun _ _ => rfl) temp persist l hl
  · intro temp persist l hl
    refine ⟨?_, ?_, ?_⟩
    · intro h
      exact commitRows_mem_untouched MercRow.item_id mercUpdRow temp
        persist l hl h
    · intro t ht hk hnd
      exact commitRows_mem_updated MercRow.item_id mercUpdRow
        (fun _ _ => rfl) temp persist t l hl ht hk hnd
    · exact commitRows_key_mem MercRow.item_id mercUpdRow
        (fun _ _ => rfl) temp persist l hl

/-- Witness for C4: committing a staged lashinbang row over a persisted
row with the same id yields the persisted row with only price and
`update_time` replaced. -/
theorem C4_commit_nondestructive_witness :
    lashL0 ∈ [lashL0] ∧
    {lashL0 with price := lashT0.price, update_time := lashT0.update_time} ∈
      LashinbangManager.update [lashT0] [lashL0] :=
  ⟨List.mem_singleton.mpr rfl,
    (C4_commit_nondestructive.1 [lashT0] [lashL0] lashL0
      (List.mem_singleton.mpr rfl)).2.1 lashT0
      (List.mem_singleton.mpr rfl) rfl (by decide)⟩

/-- C9: for every batch of items, if the bulk insert into the staging
(temp) table fails then `_to_table` rolls back the whole batch — staging
keeps its pre-run state, i.e. the empty table the run started with — and
re-raises the error (`aborted = true`), so that `compare` and `update`
do not execute (the persistent table and the log are exactly the run's
inputs); the row-timestamp stamping happens only when the insert
succeeds, in which case every staged row carries this run's timestamp.
Stated for the lashinbang and mercari adapters. -/
theorem C9_staging_rollback :
    (∀ (update : Bool) (time : Rat) (err page : Nat)
        (data persist : List LashRow) (log : List LogEntry),
      lashinbangMain false update time err page data persist log =
        ⟨[], persist, log, true⟩) ∧
    (∀ (update : Bool) (time : Rat) (err page : Nat)
        (data persist : List LashRow) (log : List LogEntry),
      ∀ r ∈ (lashinbangMain true update time err page data persist
          log).temp,
        r.record_time = time ∧ r.update_time = time) ∧
    (∀ (update : Bool) (time : Rat) (err page : Nat)
        (data persist : List MercRow) (log : List LogEntry),
      mercariMain false update time err page data persist log =
        ⟨[], persist, log, true⟩) ∧
    (∀ (update : Bool) (time : Rat) (err page : Nat)
        (data persist : List MercRow) (log : List LogEntry),
      ∀ r ∈ (mercariMain true update time err page data persist
          log).temp,
        r.record_time = time ∧ r.update_time = time) := by
  refine ⟨?_, ?_, ?_, ?_⟩
  · intro u time err page data persist log
    rfl
  · intro u time err page data persist log r hr
    have htemp : (lashinbangMain true u time err page data persist
        log).temp = lashStampRows time
          (insertIgnore LashRow.item_id [] data) := by
      cases u <;> rfl
    rw [htemp] at hr
    obtain ⟨x, hx, rfl⟩ := List.mem_map.mp hr
    exact ⟨rfl, rfl⟩
  · intro u time err page data persist log
    rfl
  · intro u time err page data persist log r hr
    have htemp : (mercariMain true u time err page data persist
        log).temp = mercStampRows time
          (insertIgnore MercRow.item_id [] data) := by
      cases u <;> rfl
    rw [htemp] at hr
    obtain ⟨x, hx, rfl⟩ := List.mem_map.mp hr
    exact ⟨rfl, rfl⟩

/-- Witness for C9: a concrete staged row carries the run timestamp
after a successful staging write. -/
theorem C9_staging_rollback_witness :
    (⟨1, "x", "u", "v", 50, 3, 3⟩ : LashRow) ∈
      (lashinbangMain true false 3 0 0 [lashT0] [] []).temp ∧
    ((⟨1, "x", "u", "v", 50, 3, 3⟩ : LashRow).record_time = 3 ∧
      (⟨1, "x", "u", "v", 50, 3, 3⟩ : LashRow).update_time = 3) :=
  ⟨by decide,
    C9_staging_rollback.2.1 false 3 0 0 [lashT0] [] []
      ⟨1, "x", "u", "v", 50, 3, 3⟩ (by decide)⟩

/-- C10: the scheduled entry point `bot_autorun.main` invokes every
site's `main` without the `update` argument (defaulting to `False`), so
`update()` is never called from it: for every configuration and fetch
outcome, a full autorun invocation leaves all persistent site tables and
the log table unchanged (only the transient `*_temp` staging tables are
rewritten), and consequently the watermark never advances under
autorun. -/
theorem C10_autorun_never_commits (tl tm ty : Rat)
    (el pl em pm ey py : Nat) (dl : List LashRow) (dm : List MercRow)
    (dy : List YahooRow) (db : DB) :
    (autorunMain tl tm ty el pl em pm ey py dl dm dy db).lashinbang =
      db.lashinbang ∧
    (autorunMain tl tm ty el pl em pm ey py dl dm dy db).mercari =
      db.mercari ∧
    (autorunMain tl tm ty el pl em pm ey py dl dm dy db).yahoo =
      db.yahoo ∧
    (autorunMain tl tm ty el pl em pm ey py dl dm dy db).log = db.log ∧
    ∀ site : String,
      lastWatermark site
        (autorunMain tl tm ty el pl em pm ey py dl dm dy db).log =
        lastWatermark site db.log := by
  refine ⟨?_, ?_, ?_, ?_, ?_⟩ <;>
    simp [autorunMain, lashinbangMainDB, mercariMainDB, yahooMainDB,
      lashinbangMain, mercariMain, yahooMain, LashinbangManager.to_table,
      MercariManager.to_table, YahooManager.to_table]
